import Mathlib

/-!
Verification of the Ainthinai terrain classifier.

Shallow embedding of the classification core of the repository:
the two `TerrainAnalyzer` copies (the debug-instrumented one in
`js/terrain-analyzer.js` and the clean one bundled inside
`js/api-client.js`), the explanation generator, and the
coast-distance estimator (`getCoastDistance` / `haversineDistance`
in `js/api-client.js`).

Numeric conventions: classifier inputs are embedded as exact
rationals.  The only arithmetic the classifier performs on numbers
is comparison against constant thresholds and the four constant
threshold products `50 * 1.5`, `1000 * 0.8`, `250 * 1.2` and
`200 * 0.8`; each of those products is exact in IEEE binary64
(75, 800, 300 and 160 respectively), so the rational model agrees
with the JavaScript double semantics on every finite input.
IEEE special values (NaN, infinities) are modelled separately by
the `JSNum` type.  The haversine estimator is embedded over the
real numbers (exact real arithmetic).
-/

namespace Ainthinai

/-- The five Ainthinai region labels returned by the classifier
(`'Neithal'`, `'Kurinji'`, `'Paalai'`, `'Mullai'`, `'Marudham'`
string literals in the source). -/
inductive Category where
  | Neithal
  | Kurinji
  | Paalai
  | Mullai
  | Marudham
deriving DecidableEq, Repr

/-- Field record for `TerrainAnalyzer.THRESHOLDS`. -/
structure ClassifierThresholds where
  COASTAL_DISTANCE : ℚ
  HIGH_ELEVATION : ℚ
  MID_ELEVATION_MIN : ℚ
  LOW_ELEVATION : ℚ
  LOW_PRECIPITATION : ℚ

/-- `TerrainAnalyzer.THRESHOLDS` (identical in both copies):
COASTAL_DISTANCE = 50 km, HIGH_ELEVATION = 1000 m,
MID_ELEVATION_MIN = 200 m, LOW_ELEVATION = 200 m,
LOW_PRECIPITATION = 250 mm/year. -/
def THRESHOLDS : ClassifierThresholds :=
  ⟨50, 1000, 200, 200, 250⟩

/-- `TerrainAnalyzer.getBestFitRegion` from `js/terrain-analyzer.js`
(the debug-instrumented module copy; its body is textually identical
to the clean copy's). -/
def getBestFitRegion (elevation coastDistance precipitation : ℚ) : Category :=
  let T := THRESHOLDS
  if coastDistance ≤ T.COASTAL_DISTANCE * 1.5 then Category.Neithal
  else if elevation ≥ T.HIGH_ELEVATION * 0.8 then Category.Kurinji
  else if precipitation < T.LOW_PRECIPITATION * 1.2 then Category.Paalai
  else if elevation ≥ T.MID_ELEVATION_MIN * 0.8 ∧ elevation < T.HIGH_ELEVATION then Category.Mullai
  else Category.Marudham

/-- `TerrainAnalyzer.applyClassificationRules` from
`js/terrain-analyzer.js` (the debug-instrumented copy).  The source
binds each rule to a boolean constant (`neithalCheck`, ...) before
testing it, which is mirrored here; the interleaved `console.log`
calls only format diagnostic strings and do not affect the returned
value, so they are dropped from the embedding. -/
def applyClassificationRules (elevation coastDistance precipitation : ℚ) : Category :=
  let T := THRESHOLDS
  let neithalCheck : Bool :=
    decide (coastDistance ≤ T.COASTAL_DISTANCE) && decide (elevation < T.LOW_ELEVATION)
  if neithalCheck then Category.Neithal else
  let kurinjiCheck : Bool :=
    decide (elevation ≥ T.HIGH_ELEVATION) && decide (coastDistance > T.COASTAL_DISTANCE)
  if kurinjiCheck then Category.Kurinji else
  let paalaiCheck : Bool :=
    decide (precipitation < T.LOW_PRECIPITATION) && decide (elevation < T.HIGH_ELEVATION) &&
      decide (coastDistance > T.COASTAL_DISTANCE)
  if paalaiCheck then Category.Paalai else
  let mullaiCheck : Bool :=
    decide (elevation ≥ T.MID_ELEVATION_MIN) && decide (elevation < T.HIGH_ELEVATION) &&
      decide (precipitation ≥ T.LOW_PRECIPITATION) && decide (coastDistance > T.COASTAL_DISTANCE)
  if mullaiCheck then Category.Mullai else
  let marudhamCheck : Bool :=
    decide (elevation < T.LOW_ELEVATION) && decide (precipitation ≥ T.LOW_PRECIPITATION) &&
      decide (coastDistance > T.COASTAL_DISTANCE)
  if marudhamCheck then Category.Marudham else
  getBestFitRegion elevation coastDistance precipitation

/-- `TerrainAnalyzer.getBestFitRegion` from the second
`TerrainAnalyzer` copy bundled in `js/api-client.js` (the clean,
log-free copy); textually identical to the other copy. -/
def getBestFitRegionClean (elevation coastDistance precipitation : ℚ) : Category :=
  let T := THRESHOLDS
  if coastDistance ≤ T.COASTAL_DISTANCE * 1.5 then Category.Neithal
  else if elevation ≥ T.HIGH_ELEVATION * 0.8 then Category.Kurinji
  else if precipitation < T.LOW_PRECIPITATION * 1.2 then Category.Paalai
  else if elevation ≥ T.MID_ELEVATION_MIN * 0.8 ∧ elevation < T.HIGH_ELEVATION then Category.Mullai
  else Category.Marudham

/-- `TerrainAnalyzer.applyClassificationRules` from the second
`TerrainAnalyzer` copy bundled in `js/api-client.js` (the clean
copy, which tests each rule condition directly in the `if`). -/
def applyClassificationRulesClean (elevation coastDistance precipitation : ℚ) : Category :=
  let T := THRESHOLDS
  if coastDistance ≤ T.COASTAL_DISTANCE ∧ elevation < T.LOW_ELEVATION then
    Category.Neithal
  else if elevation ≥ T.HIGH_ELEVATION ∧ coastDistance > T.COASTAL_DISTANCE then
    Category.Kurinji
  else if precipitation < T.LOW_PRECIPITATION ∧ elevation < T.HIGH_ELEVATION ∧
      coastDistance > T.COASTAL_DISTANCE then
    Category.Paalai
  else if elevation ≥ T.MID_ELEVATION_MIN ∧ elevation < T.HIGH_ELEVATION ∧
      precipitation ≥ T.LOW_PRECIPITATION ∧ coastDistance > T.COASTAL_DISTANCE then
    Category.Mullai
  else if elevation < T.LOW_ELEVATION ∧ precipitation ≥ T.LOW_PRECIPITATION ∧
      coastDistance > T.COASTAL_DISTANCE then
    Category.Marudham
  else
    getBestFitRegionClean elevation coastDistance precipitation

/-- The two duplicated module copies compute the same function
(shared bridge lemma between the boolean-constant style of the
debug copy and the direct-condition style of the clean copy). -/
lemma rules_eq_clean (elevation coastDistance precipitation : ℚ) :
    applyClassificationRules elevation coastDistance precipitation =
      applyClassificationRulesClean elevation coastDistance precipitation := by
  simp only [applyClassificationRules, applyClassificationRulesClean,
    getBestFitRegion, getBestFitRegionClean,
    Bool.and_eq_true, decide_eq_true_eq, and_assoc]

/-- The spec's strict-tier priority table, written from the spec's
words: the first of the five strict predicates that holds, in the
order Neithal, Kurinji, Paalai, Mullai, Marudham, determines the
result; `none` when no strict predicate holds. -/
def firstStrictMatch (elevation coastDistance precipitation : ℚ) : Option Category :=
  if coastDistance ≤ 50 ∧ elevation < 200 then some Category.Neithal
  else if elevation ≥ 1000 ∧ coastDistance > 50 then some Category.Kurinji
  else if precipitation < 250 ∧ elevation < 1000 ∧ coastDistance > 50 then some Category.Paalai
  else if elevation ≥ 200 ∧ elevation < 1000 ∧ precipitation ≥ 250 ∧ coastDistance > 50 then
    some Category.Mullai
  else if elevation < 200 ∧ precipitation ≥ 250 ∧ coastDistance > 50 then some Category.Marudham
  else none

/-- The spec's fallback ("best fit") tier, written from the spec's
words: Neithal if coastDistance ≤ 50 × 1.5; else Kurinji if
elevation ≥ 1000 × 0.8; else Paalai if precipitation < 250 × 1.2;
else Mullai if elevation ≥ 200 × 0.8 and elevation < 1000; else
Marudham unconditionally. -/
def bestFitSpec (elevation coastDistance precipitation : ℚ) : Category :=
  if coastDistance ≤ 50 * 1.5 then Category.Neithal
  else if elevation ≥ 1000 * 0.8 then Category.Kurinji
  else if precipitation < 250 * 1.2 then Category.Paalai
  else if elevation ≥ 200 * 0.8 ∧ elevation < 1000 then Category.Mullai
  else Category.Marudham

/-- The fallback tier of the clean copy coincides definitionally with
the spec's fallback table (the threshold products reduce to the same
rationals). -/
lemma bestFitClean_eq_spec (elevation coastDistance precipitation : ℚ) :
    getBestFitRegionClean elevation coastDistance precipitation =
      bestFitSpec elevation coastDistance precipitation := rfl

/-- Claim C1: for every input triple, `applyClassificationRules`
evaluates the five strict predicates in the order Neithal, Kurinji,
Paalai, Mullai, Marudham and returns the category of the first
predicate that holds (the priority table of the spec, embodied here
by `firstStrictMatch`). -/
theorem strict_tier_first_match (elevation coastDistance precipitation : ℚ)
    (c : Category)
    (h : firstStrictMatch elevation coastDistance precipitation = some c) :
    applyClassificationRules elevation coastDistance precipitation = c := by
  rw [rules_eq_clean]
  simp only [applyClassificationRulesClean, THRESHOLDS]
  unfold firstStrictMatch at h
  split_ifs at h ⊢ <;> simp_all

/-- Witness for claim C1 at a concrete input. -/
theorem strict_tier_first_match_witness :
    firstStrictMatch 10 5 900 = some Category.Neithal ∧
    applyClassificationRules 10 5 900 = Category.Neithal :=
  ⟨by decide, strict_tier_first_match 10 5 900 Category.Neithal (by decide)⟩

/-- Claim C2: on every input triple on which none of the five strict
predicates holds, the result is that of the fallback tier with the
exact relaxed thresholds 50 × 1.5, 1000 × 0.8, 250 × 1.2, 200 × 0.8,
evaluated in the order Neithal, Kurinji, Paalai, Mullai, Marudham
(the spec-side table `bestFitSpec`). -/
theorem fallback_tier_spec (elevation coastDistance precipitation : ℚ)
    (h : firstStrictMatch elevation coastDistance precipitation = none) :
    applyClassificationRules elevation coastDistance precipitation =
      bestFitSpec elevation coastDistance precipitation := by
  rw [rules_eq_clean]
  simp only [applyClassificationRulesClean, THRESHOLDS]
  unfold firstStrictMatch at h
  split_ifs at h ⊢
  simp_all [bestFitClean_eq_spec]

/-- Witness for claim C2 at a concrete input. -/
theorem fallback_tier_spec_witness :
    firstStrictMatch 300 30 400 = none ∧
    applyClassificationRules 300 30 400 = bestFitSpec 300 30 400 :=
  ⟨by decide, fallback_tier_spec 300 30 400 (by decide)⟩

/-- Claim C3: classification is total — for every elevation, every
coastDistance ≥ 0 and every precipitation ≥ 0, the classifier
returns exactly one of the five categories. -/
theorem classification_total (elevation coastDistance precipitation : ℚ)
    (_hcd : 0 ≤ coastDistance) (_hp : 0 ≤ precipitation) :
    applyClassificationRules elevation coastDistance precipitation = Category.Neithal ∨
    applyClassificationRules elevation coastDistance precipitation = Category.Kurinji ∨
    applyClassificationRules elevation coastDistance precipitation = Category.Paalai ∨
    applyClassificationRules elevation coastDistance precipitation = Category.Mullai ∨
    applyClassificationRules elevation coastDistance precipitation = Category.Marudham := by
  cases h : applyClassificationRules elevation coastDistance precipitation <;> simp

/-- Witness for claim C3 at a concrete input. -/
theorem classification_total_witness :
    (0 : ℚ) ≤ 0 ∧
    (applyClassificationRules 0 0 0 = Category.Neithal ∨
     applyClassificationRules 0 0 0 = Category.Kurinji ∨
     applyClassificationRules 0 0 0 = Category.Paalai ∨
     applyClassificationRules 0 0 0 = Category.Mullai ∨
     applyClassificationRules 0 0 0 = Category.Marudham) :=
  ⟨le_refl 0, classification_total 0 0 0 (le_refl 0) (le_refl 0)⟩

/-- Claim C6: the coastal rule boundary is exact — with elevation
199, coastDistance exactly 50 yields Neithal for every
precipitation ≥ 0 (the ≤ comparison is inclusive), while
coastDistance 50.0001 never yields Neithal. -/
theorem coastal_boundary_exact (precipitation : ℚ) (_hp : 0 ≤ precipitation) :
    applyClassificationRules 199 50 precipitation = Category.Neithal ∧
    applyClassificationRules 199 50.0001 precipitation ≠ Category.Neithal := by
  constructor
  · rw [rules_eq_clean]
    simp only [applyClassificationRulesClean, THRESHOLDS]
    norm_num
  · rw [rules_eq_clean]
    simp only [applyClassificationRulesClean, getBestFitRegionClean, THRESHOLDS]
    by_cases h : precipitation < 250
    · norm_num [h]
      decide
    · norm_num [h]
      exact ⟨le_of_not_lt h, by decide⟩

/-- Witness for claim C6 at a concrete input. -/
theorem coastal_boundary_exact_witness :
    (0 : ℚ) ≤ 0 ∧
    (applyClassificationRules 199 50 0 = Category.Neithal ∧
     applyClassificationRules 199 50.0001 0 ≠ Category.Neithal) :=
  ⟨le_refl 0, coastal_boundary_exact 0 (le_refl 0)⟩

/-- Claim C7: the Neithal and Kurinji strict predicates are mutually
exclusive under the default thresholds — their conjunction (as the
boolean checks the classifier computes) is false on every input
triple, Kurinji requiring coastDistance strictly above the coastal
cutoff that Neithal requires at or below. -/
theorem neithal_kurinji_exclusive (elevation coastDistance _precipitation : ℚ) :
    (decide (coastDistance ≤ THRESHOLDS.COASTAL_DISTANCE ∧
        elevation < THRESHOLDS.LOW_ELEVATION) &&
     decide (elevation ≥ THRESHOLDS.HIGH_ELEVATION ∧
        coastDistance > THRESHOLDS.COASTAL_DISTANCE)) = false := by
  by_cases h : coastDistance ≤ THRESHOLDS.COASTAL_DISTANCE
  · have h2 : ¬(elevation ≥ THRESHOLDS.HIGH_ELEVATION ∧
        coastDistance > THRESHOLDS.COASTAL_DISTANCE) := by
      rintro ⟨-, hgt⟩
      exact absurd h (not_le.mpr hgt)
    simp [h2]
  · simp [h]

/-- Claim C9: the two `TerrainAnalyzer` implementations present in
the source — the debug-instrumented copy in `js/terrain-analyzer.js`
and the clean copy in `js/api-client.js` — are extensionally equal:
on every input triple, their `applyClassificationRules` functions
(including their `getBestFitRegion` fallbacks) return the same
category. -/
theorem debug_clean_copies_agree (elevation coastDistance precipitation : ℚ) :
    applyClassificationRules elevation coastDistance precipitation =
      applyClassificationRulesClean elevation coastDistance precipitation :=
  rules_eq_clean elevation coastDistance precipitation

/-- The `terrainData` record handed to the display helpers
(`{ elevation, coastDistance, precipitation }` in the source). -/
structure TerrainData where
  elevation : ℚ
  coastDistance : ℚ
  precipitation : ℚ

/-- JavaScript `Math.round`: nearest integer, ties toward plus
infinity, i.e. the floor of x + 1/2. -/
def jsRound (x : ℚ) : ℤ := ⌊x + 1 / 2⌋

/-- JavaScript `Number.prototype.toFixed(2)`: the integer n for
which n / 100 is closest to x, ties picking the larger n, printed
with exactly two decimal digits. -/
def toFixed2 (x : ℚ) : String :=
  let n : ℤ := ⌊x * 100 + 1 / 2⌋
  let sign := if n < 0 then "-" else ""
  let a := n.natAbs
  sign ++ toString (a / 100) ++ "." ++ (if a % 100 < 10 then "0" else "") ++ toString (a % 100)

/-- `TerrainAnalyzer.formatElevation` (identical in both copies). -/
def formatElevation (meters : ℚ) : String :=
  if meters < 0 then "Below sea level"
  else if meters < 1000 then toString (jsRound meters) ++ " m"
  else toFixed2 (meters / 1000) ++ " km"

/-- `TerrainAnalyzer.formatPrecipitation` (identical in both copies). -/
def formatPrecipitation (mm : ℚ) : String :=
  toString (jsRound mm) ++ " mm/year"

/-- `TerrainAnalyzer.getClassificationExplanation` (identical in
both copies): the ordered justification strings for a category;
the template-literal interpolations are rendered through the same
format helpers the source calls. -/
def getClassificationExplanation (region : Category) (terrainData : TerrainData) : List String :=
  let elevation := terrainData.elevation
  let precipitation := terrainData.precipitation
  let T := THRESHOLDS
  match region with
  | Category.Neithal =>
      ["Within " ++ toString T.COASTAL_DISTANCE ++ "km of the coast",
       "Low elevation (" ++ formatElevation elevation ++ ")"]
  | Category.Kurinji =>
      ["High elevation (" ++ formatElevation elevation ++ ")",
       "Mountainous terrain"]
  | Category.Paalai =>
      ["Low annual rainfall (" ++ formatPrecipitation precipitation ++ ")",
       "Arid conditions"]
  | Category.Mullai =>
      ["Mid-altitude elevation (" ++ formatElevation elevation ++ ")",
       "Adequate rainfall for vegetation",
       "Inland location"]
  | Category.Marudham =>
      ["Low elevation (" ++ formatElevation elevation ++ ")",
       "Adequate rainfall for agriculture",
       "Fertile plains"]

/-- Claim C4 counterexample: the sample (elevation 500,
coastDistance 40, precipitation 300) is classified Neithal (through
the fallback tier), and the explanation generator then asserts
"Low elevation" of it, yet elevation 500 is not below the
200 m low-elevation threshold — the claimed consistency fails. -/
theorem neithal_explanation_counterexample :
    applyClassificationRules 500 40 300 = Category.Neithal ∧
    getClassificationExplanation Category.Neithal ⟨500, 40, 300⟩ =
      ["Within 50km of the coast", "Low elevation (500 m)"] ∧
    ¬ ((500 : ℚ) < 200) := by
  refine ⟨?_, ?_, by norm_num⟩
  · norm_num [applyClassificationRules, getBestFitRegion, THRESHOLDS]
  · have hr : jsRound 500 = 500 := by
      norm_num [jsRound]
    simp only [getClassificationExplanation, formatElevation, hr]
    decide

/-- Claim C4 (amended): whenever the classifier returns Neithal, the
explanation's "Within 50km of the coast" condition does hold of the
sample (coastDistance ≤ 50, even when Neithal came from the fallback
tier), but its "Low elevation" condition (elevation < 200) holds
exactly when the strict Neithal rule matched — a fallback-produced
Neithal always has elevation ≥ 200, so that justification is then
false of the sample. -/
theorem neithal_explanation_amended (elevation coastDistance precipitation : ℚ)
    (h : applyClassificationRules elevation coastDistance precipitation = Category.Neithal) :
    coastDistance ≤ THRESHOLDS.COASTAL_DISTANCE ∧
    (elevation < THRESHOLDS.LOW_ELEVATION ↔
      firstStrictMatch elevation coastDistance precipitation = some Category.Neithal) := by
  rw [rules_eq_clean] at h
  simp only [applyClassificationRulesClean, getBestFitRegionClean, THRESHOLDS] at h
  simp only [THRESHOLDS]
  split_ifs at h with h1 h2 h3 h4 h5 h6 h7 h8 h9 <;> try simp at h
  · refine ⟨h1.1, ?_⟩
    constructor
    · intro _
      simp [firstStrictMatch, h1]
    · intro _
      exact h1.2
  · have hcd50 : coastDistance ≤ 50 := by
      rcases le_or_lt coastDistance 50 with hle | hgt
      · exact hle
      · exfalso
        have he1000 : elevation < 1000 := by
          by_contra hh
          push_neg at hh
          exact h2 ⟨hh, hgt⟩
        have hp250 : 250 ≤ precipitation := by
          by_contra hh
          push_neg at hh
          exact h3 ⟨hh, he1000, hgt⟩
        have he200 : elevation < 200 := by
          by_contra hh
          push_neg at hh
          exact h4 ⟨hh, he1000, hp250, hgt⟩
        exact h5 ⟨he200, hp250, hgt⟩
    have hne : ¬ elevation < 200 := fun hlt => h1 ⟨hcd50, hlt⟩
    have hnot50 : ¬ coastDistance > 50 := not_lt.mpr hcd50
    refine ⟨hcd50, ?_, ?_⟩
    · intro hlt
      exact absurd hlt hne
    · intro hfsm
      simp [firstStrictMatch, h1, hnot50] at hfsm

/-- Witness for the amended claim C4 at a concrete input. -/
theorem neithal_explanation_amended_witness :
    applyClassificationRules 100 30 300 = Category.Neithal ∧
    ((30 : ℚ) ≤ THRESHOLDS.COASTAL_DISTANCE ∧
     ((100 : ℚ) < THRESHOLDS.LOW_ELEVATION ↔
       firstStrictMatch 100 30 300 = some Category.Neithal)) :=
  ⟨by decide, neithal_explanation_amended 100 30 300 (by decide)⟩

/-- IEEE-754 double values as the JavaScript comparisons in the
classifier see them: NaN, the two infinities, or a finite value
(the finite doubles are a subset of the rationals). -/
inductive JSNum where
  | nan
  | posInf
  | negInf
  | num (q : ℚ)

/-- JavaScript `<` on doubles: false whenever either operand is NaN. -/
def jsLt : JSNum → JSNum → Bool
  | JSNum.nan, _ => false
  | _, JSNum.nan => false
  | JSNum.negInf, JSNum.negInf => false
  | JSNum.negInf, _ => true
  | _, JSNum.negInf => false
  | JSNum.posInf, _ => false
  | JSNum.num _, JSNum.posInf => true
  | JSNum.num a, JSNum.num b => decide (a < b)

/-- JavaScript `<=` on doubles: false whenever either operand is NaN. -/
def jsLe : JSNum → JSNum → Bool
  | JSNum.nan, _ => false
  | _, JSNum.nan => false
  | JSNum.negInf, _ => true
  | _, JSNum.negInf => false
  | JSNum.posInf, JSNum.posInf => true
  | JSNum.posInf, JSNum.num _ => false
  | JSNum.num _, JSNum.posInf => true
  | JSNum.num a, JSNum.num b => decide (a ≤ b)

/-- JavaScript `>` on doubles (the relational comparison with the
operands swapped; false on NaN). -/
def jsGt (a b : JSNum) : Bool := jsLt b a

/-- JavaScript `>=` on doubles (false on NaN; otherwise the
negation of `<`, which for non-NaN operands is the swapped `<=`). -/
def jsGe (a b : JSNum) : Bool := jsLe b a

/-- `TerrainAnalyzer.getBestFitRegion` over IEEE double inputs.
The four threshold products 50 * 1.5, 1000 * 0.8, 250 * 1.2 and
200 * 0.8 are each exact in binary64 arithmetic (75, 800, 300, 160),
so they appear here as the products of the exact rationals. -/
def getBestFitRegionJS (elevation coastDistance precipitation : JSNum) : Category :=
  let T := THRESHOLDS
  if jsLe coastDistance (JSNum.num (T.COASTAL_DISTANCE * 1.5)) then Category.Neithal
  else if jsGe elevation (JSNum.num (T.HIGH_ELEVATION * 0.8)) then Category.Kurinji
  else if jsLt precipitation (JSNum.num (T.LOW_PRECIPITATION * 1.2)) then Category.Paalai
  else if jsGe elevation (JSNum.num (T.MID_ELEVATION_MIN * 0.8)) &&
      jsLt elevation (JSNum.num T.HIGH_ELEVATION) then Category.Mullai
  else Category.Marudham

/-- `TerrainAnalyzer.applyClassificationRules` over IEEE double
inputs, with the JavaScript comparison semantics (every comparison
involving NaN is false). -/
def applyClassificationRulesJS (elevation coastDistance precipitation : JSNum) : Category :=
  let T := THRESHOLDS
  let neithalCheck : Bool :=
    jsLe coastDistance (JSNum.num T.COASTAL_DISTANCE) && jsLt elevation (JSNum.num T.LOW_ELEVATION)
  if neithalCheck then Category.Neithal else
  let kurinjiCheck : Bool :=
    jsGe elevation (JSNum.num T.HIGH_ELEVATION) && jsGt coastDistance (JSNum.num T.COASTAL_DISTANCE)
  if kurinjiCheck then Category.Kurinji else
  let paalaiCheck : Bool :=
    jsLt precipitation (JSNum.num T.LOW_PRECIPITATION) && jsLt elevation (JSNum.num T.HIGH_ELEVATION) &&
      jsGt coastDistance (JSNum.num T.COASTAL_DISTANCE)
  if paalaiCheck then Category.Paalai else
  let mullaiCheck : Bool :=
    jsGe elevation (JSNum.num T.MID_ELEVATION_MIN) && jsLt elevation (JSNum.num T.HIGH_ELEVATION) &&
      jsGe precipitation (JSNum.num T.LOW_PRECIPITATION) && jsGt coastDistance (JSNum.num T.COASTAL_DISTANCE)
  if mullaiCheck then Category.Mullai else
  let marudhamCheck : Bool :=
    jsLt elevation (JSNum.num T.LOW_ELEVATION) && jsGe precipitation (JSNum.num T.LOW_PRECIPITATION) &&
      jsGt coastDistance (JSNum.num T.COASTAL_DISTANCE)
  if marudhamCheck then Category.Marudham else
  getBestFitRegionJS elevation coastDistance precipitation

/-- Claim C10: the classifier, under JavaScript number semantics,
is total on every double input including NaN and the infinities
(every path returns one of the five categories and no operation can
throw), and on the all-NaN input every comparison of both tiers is
false, so the result is the unconditional Marudham default. -/
theorem classification_js_nan_total :
    (∀ elevation coastDistance precipitation : JSNum,
      applyClassificationRulesJS elevation coastDistance precipitation = Category.Neithal ∨
      applyClassificationRulesJS elevation coastDistance precipitation = Category.Kurinji ∨
      applyClassificationRulesJS elevation coastDistance precipitation = Category.Paalai ∨
      applyClassificationRulesJS elevation coastDistance precipitation = Category.Mullai ∨
      applyClassificationRulesJS elevation coastDistance precipitation = Category.Marudham) ∧
    applyClassificationRulesJS JSNum.nan JSNum.nan JSNum.nan = Category.Marudham := by
  constructor
  · intro elevation coastDistance precipitation
    cases h : applyClassificationRulesJS elevation coastDistance precipitation <;> simp
  · rfl

/-- A coordinate pair in degrees (the `{lat, lon}` objects of the
reference point list in `js/api-client.js`). -/
structure Coordinate where
  lat : ℝ
  lon : ℝ

/-- `APIClient.toRadians`. -/
noncomputable def toRadians (degrees : ℝ) : ℝ :=
  degrees * (Real.pi / 180)

/-- JavaScript `Math.atan2` in exact real arithmetic (the standard
two-argument arctangent by quadrant; the signed-zero distinctions of
IEEE doubles collapse in ℝ). -/
noncomputable def atan2 (y x : ℝ) : ℝ :=
  if 0 < x then Real.arctan (y / x)
  else if x < 0 then
    (if 0 ≤ y then Real.arctan (y / x) + Real.pi else Real.arctan (y / x) - Real.pi)
  else if 0 < y then Real.pi / 2
  else if y < 0 then -(Real.pi / 2)
  else 0

/-- The intermediate `a` of `APIClient.haversineDistance`:
sin²(Δlat/2) + cos(lat1)·cos(lat2)·sin²(Δlon/2), all angles first
converted to radians. -/
noncomputable def haversineA (lat1 lon1 lat2 lon2 : ℝ) : ℝ :=
  Real.sin (toRadians (lat2 - lat1) / 2) * Real.sin (toRadians (lat2 - lat1) / 2) +
    Real.cos (toRadians lat1) * Real.cos (toRadians lat2) *
    Real.sin (toRadians (lon2 - lon1) / 2) * Real.sin (toRadians (lon2 - lon1) / 2)

/-- `APIClient.haversineDistance` (identical in both copies):
R · c with R = 6371 km and c = 2·atan2(√a, √(1−a)). -/
noncomputable def haversineDistance (lat1 lon1 lat2 lon2 : ℝ) : ℝ :=
  6371 * (2 * atan2 (Real.sqrt (haversineA lat1 lon1 lat2 lon2))
    (Real.sqrt (1 - haversineA lat1 lon1 lat2 lon2)))

/-- `APIClient.getCoastDistance` (the first copy in
`js/api-client.js`): a linear scan over the coastal reference
points, keeping the running minimum of the haversine distances,
started at Infinity (⊤).  The source obtains the point list from
`getCoastalReferencePoints`; the scan is parametrised by the list
here, as the spec's contract is. -/
noncomputable def getCoastDistance (lat lon : ℝ) (coastalPoints : List Coordinate) : EReal :=
  coastalPoints.foldl
    (fun minDistance point =>
      min minDistance ((haversineDistance lat lon point.lat point.lon : ℝ) : EReal))
    ⊤

/-- A left fold of `min` never exceeds its initial accumulator. -/
lemma foldl_min_le_init (l : List EReal) (a : EReal) : l.foldl min a ≤ a := by
  induction l generalizing a with
  | nil => exact le_refl a
  | cons y ys ih => exact le_trans (ih (min a y)) (min_le_left a y)

/-- A left fold of `min` never exceeds any list element. -/
lemma foldl_min_le (l : List EReal) (a x : EReal) (hx : x ∈ l) :
    l.foldl min a ≤ x := by
  induction l generalizing a with
  | nil => cases hx
  | cons y ys ih =>
    rcases List.mem_cons.mp hx with rfl | hmem
    · exact le_trans (foldl_min_le_init ys (min a x)) (min_le_right a x)
    · exact ih (min a y) hmem

/-- A left fold of `min` is the initial accumulator or some list
element. -/
lemma foldl_min_init_or_mem (l : List EReal) (a : EReal) :
    l.foldl min a = a ∨ ∃ x ∈ l, l.foldl min a = x := by
  induction l generalizing a with
  | nil => exact Or.inl rfl
  | cons y ys ih =>
    rcases ih (min a y) with h | ⟨x, hx, hfx⟩
    · rcases le_total a y with hay | hya
      · exact Or.inl (h.trans (min_eq_left hay))
      · exact Or.inr ⟨y, List.mem_cons_self y ys, h.trans (min_eq_right hya)⟩
    · exact Or.inr ⟨x, List.mem_cons_of_mem y hx, hfx⟩

/-- Claim C5: for every query coordinate and every non-empty
reference point list, `getCoastDistance` returns exactly the
minimum, over the points of the list, of the haversine distance
from the query point: it is a lower bound of all the distances and
is attained at some point of the list. -/
theorem getCoastDistance_is_min (lat lon : ℝ) (coastalPoints : List Coordinate)
    (hne : coastalPoints ≠ []) :
    (∀ point ∈ coastalPoints,
      getCoastDistance lat lon coastalPoints ≤
        ((haversineDistance lat lon point.lat point.lon : ℝ) : EReal)) ∧
    (∃ point ∈ coastalPoints,
      getCoastDistance lat lon coastalPoints =
        ((haversineDistance lat lon point.lat point.lon : ℝ) : EReal)) := by
  have hmap : getCoastDistance lat lon coastalPoints =
      (coastalPoints.map (fun point =>
        ((haversineDistance lat lon point.lat point.lon : ℝ) : EReal))).foldl min ⊤ := by
    unfold getCoastDistance
    rw [List.foldl_map]
  constructor
  · intro point hpt
    rw [hmap]
    exact foldl_min_le _ _ _ (List.mem_map_of_mem _ hpt)
  · rcases foldl_min_init_or_mem
      (coastalPoints.map (fun point =>
        ((haversineDistance lat lon point.lat point.lon : ℝ) : EReal))) ⊤ with htop | hmem
    · exfalso
      obtain ⟨q, hq⟩ := List.exists_mem_of_ne_nil coastalPoints hne
      have hle := foldl_min_le _ ⊤ _ (List.mem_map_of_mem
        (fun point => ((haversineDistance lat lon point.lat point.lon : ℝ) : EReal)) hq)
      rw [htop] at hle
      exact EReal.coe_ne_top _ (top_le_iff.mp hle)
    · obtain ⟨x, hx, hfx⟩ := hmem
      obtain ⟨point, hpt, rfl⟩ := List.mem_map.mp hx
      exact ⟨point, hpt, by rw [hmap]; exact hfx⟩

/-- Witness for claim C5 at a concrete one-point reference set. -/
theorem getCoastDistance_is_min_witness :
    ([(⟨0, 0⟩ : Coordinate)] : List Coordinate) ≠ [] ∧
    ((∀ point ∈ [(⟨0, 0⟩ : Coordinate)],
        getCoastDistance 0 0 [(⟨0, 0⟩ : Coordinate)] ≤
          ((haversineDistance 0 0 point.lat point.lon : ℝ) : EReal)) ∧
     (∃ point ∈ [(⟨0, 0⟩ : Coordinate)],
        getCoastDistance 0 0 [(⟨0, 0⟩ : Coordinate)] =
          ((haversineDistance 0 0 point.lat point.lon : ℝ) : EReal))) :=
  ⟨List.cons_ne_nil _ _, getCoastDistance_is_min 0 0 [⟨0, 0⟩] (List.cons_ne_nil _ _)⟩

/-- Claim C8: haversine symmetry in exact real arithmetic — for any
two coordinates, the distance from A to B equals the distance from
B to A (the intermediate `a` is invariant under swapping the
endpoints, since sin²(−x/2) = sin²(x/2) and the cosine factors
commute). -/
theorem haversine_symm (lat1 lon1 lat2 lon2 : ℝ) :
    haversineDistance lat1 lon1 lat2 lon2 = haversineDistance lat2 lon2 lat1 lon1 := by
  have hrad : ∀ x y : ℝ, toRadians (x - y) = -toRadians (y - x) := by
    intro x y
    unfold toRadians
    ring
  have hA : haversineA lat1 lon1 lat2 lon2 = haversineA lat2 lon2 lat1 lon1 := by
    unfold haversineA
    rw [hrad lat2 lat1, hrad lon2 lon1, neg_div, neg_div, Real.sin_neg, Real.sin_neg]
    ring
  unfold haversineDistance
  rw [hA]

end Ainthinai
